import Mathlib

/-
Shallow embedding of src/index.js of the google-calendar-mcp repository:
the tool registry (ListToolsRequestSchema handler), the tool dispatcher
(CallToolRequestSchema handler) and the four tool handlers
(handleCreateEvent, handleUpdateEvent, handleDeleteEvent, handleListEvents).

JavaScript undefined is modelled as Option.none; a thrown error from the
googleapis Calendar client is modelled as Except.error carrying the error
message.  The ambient values that the handlers read from the process are
passed explicitly: tz models Intl.DateTimeFormat().resolvedOptions().timeZone
and now models new Date().toISOString().
-/

namespace GCalMcp

/-- truthiness of a JavaScript string-or-undefined value: undefined and the
empty string are falsy, every other string is truthy. -/
def jsTruthyStr : Option String → Bool
  | none => false
  | some s => s ≠ ""

/-- truthiness of a JavaScript number-or-undefined value: undefined and 0 are
falsy (integral numbers only; the tool schema declares a plain number). -/
def jsTruthyNum : Option Int → Bool
  | none => false
  | some n => n ≠ 0

/-- the JavaScript expression v || d for a string-or-undefined v. -/
def jsOrStr : Option String → String → String
  | none, d => d
  | some s, d => if s = "" then d else s

/-- the JavaScript expression v || d for a number-or-undefined v. -/
def jsOrNum : Option Int → Int → Int
  | none, d => d
  | some n, d => if n = 0 then d else n

/-- rendering of a string-or-undefined value inside a template literal:
undefined renders as the text "undefined". -/
def jsTemplate : Option String → String
  | none => "undefined"
  | some s => s

/-- a start or end endpoint as built by the handlers:
\x7b dateTime, timeZone \x7d. -/
structure EventTime where
  dateTime : Option String
  timeZone : String
deriving DecidableEq, Repr

/-- a one-field attendee object \x7b email \x7d. -/
structure Attendee where
  email : String
deriving DecidableEq, Repr

/-- the argument bag of a tool call (request.params.arguments): one untyped
JavaScript object; every field a handler may destructure, each possibly
undefined.  The source field named end is embedded as endTime (Lean keyword). -/
structure Args where
  summary : Option String := none
  location : Option String := none
  description : Option String := none
  start : Option String := none
  endTime : Option String := none
  attendees : Option (List String) := none
  eventId : Option String := none
  maxResults : Option Int := none
  timeMin : Option String := none
  timeMax : Option String := none
deriving DecidableEq, Repr

/-- the full event object built by handleCreateEvent. -/
structure CreateBody where
  summary : Option String
  location : Option String
  description : Option String
  start : EventTime
  endTime : EventTime
  attendees : List Attendee
deriving DecidableEq, Repr

/-- the sparse patch object built by handleUpdateEvent; a missing key is
Option.none. -/
structure PatchBody where
  summary : Option String := none
  location : Option String := none
  description : Option String := none
  start : Option EventTime := none
  endTime : Option EventTime := none
  attendees : Option (List Attendee) := none
deriving DecidableEq, Repr

/-- the argument object of calendar.events.insert. -/
structure InsertParams where
  calendarId : String
  requestBody : CreateBody
deriving DecidableEq, Repr

/-- the argument object of calendar.events.patch. -/
structure PatchParams where
  calendarId : String
  eventId : Option String
  requestBody : PatchBody
deriving DecidableEq, Repr

/-- the argument object of calendar.events.delete. -/
structure DeleteParams where
  calendarId : String
  eventId : Option String
deriving DecidableEq, Repr

/-- the argument object of calendar.events.list. -/
structure ListParams where
  calendarId : String
  timeMin : String
  timeMax : Option String
  maxResults : Int
  singleEvents : Bool
  orderBy : String
deriving DecidableEq, Repr

/-- an event record as returned by the provider inside response.data.items;
it carries more fields than the handler projection keeps (description,
status, htmlLink stand for the dropped provider fields). -/
structure GEvent where
  id : Option String := none
  summary : Option String := none
  description : Option String := none
  location : Option String := none
  start : Option EventTime := none
  endTime : Option EventTime := none
  status : Option String := none
  htmlLink : Option String := none
deriving DecidableEq, Repr

/-- the projected view built by handleListEvents: exactly the fields
id, summary, start, end, location. -/
structure ProjEvent where
  id : Option String
  summary : Option String
  start : Option EventTime
  endTime : Option EventTime
  location : Option String
deriving DecidableEq, Repr

/-- response.data of insert and patch: the event record returned by the
provider, of which the handlers read only id. -/
structure EventData where
  id : String
deriving DecidableEq, Repr

/-- response.data of list: items may be absent. -/
structure ListData where
  items : Option (List GEvent)
deriving DecidableEq, Repr

/-- the authenticated Calendar client handle: each operation either returns
a value or throws (Except.error with the error message). -/
structure Calendar where
  insert : InsertParams → Except String EventData
  patch : PatchParams → Except String EventData
  delete : DeleteParams → Except String Unit
  list : ListParams → Except String ListData

/-- one content item of a ToolResult; text is undefined (none) when the
source stores a non-string there. -/
structure ContentItem where
  type : String
  text : Option String
deriving DecidableEq, Repr

/-- the normalized result envelope of every tool invocation; isError is
false when the source leaves it unset. -/
structure ToolResult where
  content : List ContentItem
  isError : Bool := false
deriving DecidableEq, Repr

/-- protocol error codes of the MCP SDK used by this file. -/
inductive ErrorCode where
  | methodNotFound
deriving DecidableEq, Repr

/-- outcome of the CallToolRequestSchema handler: a returned ToolResult, or
a thrown McpError (protocol-level error). -/
inductive DispatchOutcome where
  | result (r : ToolResult)
  | mcpError (code : ErrorCode) (message : String)
deriving DecidableEq, Repr

/-- a tool call: request.params. -/
structure ToolCall where
  name : String
  arguments : Args
deriving DecidableEq, Repr

/-- a JSON string literal as produced when serializing the projected events
(escaping backslash, quote and newline; other characters of the inputs at
hand pass through unchanged). -/
def jsonQuote (s : String) : String :=
  "\"" ++
    (s.foldl
      (fun acc c =>
        if c = '\\' then acc ++ "\\\\"
        else if c = '"' then acc ++ "\\\""
        else if c = '\n' then acc ++ "\\n"
        else acc.push c)
      "") ++ "\""

/-- a serialized string-valued JSON field, empty when the value is undefined
(JSON.stringify drops undefined fields). -/
def jsonField (k : String) (v : Option String) : List String :=
  match v with
  | none => []
  | some s => [jsonQuote k ++ ": " ++ jsonQuote s]

/-- serialization of a start or end endpoint object. -/
def jsonEventTime (t : EventTime) : String :=
  "\x7b" ++
    String.intercalate ", "
      (jsonField "dateTime" t.dateTime ++
        [jsonQuote "timeZone" ++ ": " ++ jsonQuote t.timeZone]) ++
    "\x7d"

/-- a serialized endpoint-valued JSON field, empty when undefined. -/
def jsonTimeField (k : String) (v : Option EventTime) : List String :=
  match v with
  | none => []
  | some t => [jsonQuote k ++ ": " ++ jsonEventTime t]

/-- serialization of one projected event, keys in insertion order. -/
def jsonProjEvent (e : ProjEvent) : String :=
  "\x7b" ++
    String.intercalate ", "
      (jsonField "id" e.id ++ jsonField "summary" e.summary ++
        jsonTimeField "start" e.start ++ jsonTimeField "end" e.endTime ++
        jsonField "location" e.location) ++
    "\x7d"

/-- model of JSON.stringify(events, null, 2) applied to the projected list;
the whitespace layout of the indented output is abstracted to one line. -/
def stringifyProjList (l : List ProjEvent) : String :=
  "[" ++ String.intercalate ", " (l.map jsonProjEvent) ++ "]"

/-- the full event object built by handleCreateEvent (src/index.js lines
181 to 194): both endpoints carry the process local timezone tz, and the
attendees list defaults to the empty sequence when undefined. -/
def createBodyOf (args : Args) (tz : String) : CreateBody :=
  { summary := args.summary
    location := args.location
    description := args.description
    start := { dateTime := args.start, timeZone := tz }
    endTime := { dateTime := args.endTime, timeZone := tz }
    attendees := (args.attendees.getD []).map (fun email => { email := email }) }

/-- the argument object of the insert call made by handleCreateEvent
(src/index.js lines 196 to 199). -/
def createInsertParams (args : Args) (tz : String) : InsertParams :=
  { calendarId := "primary", requestBody := createBodyOf args tz }

/-- handleCreateEvent (src/index.js lines 177 to 220). -/
def handleCreateEvent (args : Args) (tz : String) (cal : Calendar) : ToolResult :=
  match cal.insert (createInsertParams args tz) with
  | .ok resp =>
      { content := [{ type := "text",
                      text := some ("Event created successfully. Event ID: " ++ resp.id) }] }
  | .error msg =>
      { content := [{ type := "text",
                      text := some ("Error creating event: " ++ msg) }],
        isError := true }

/-- the sparse patch object built by handleUpdateEvent (src/index.js lines
227 to 245): each field is included only when its argument value is truthy
(if (summary) and so on); attendees is an array, hence truthy whenever
present, even when empty. -/
def patchBodyOf (args : Args) (tz : String) : PatchBody :=
  { summary := if jsTruthyStr args.summary then args.summary else none
    location := if jsTruthyStr args.location then args.location else none
    description := if jsTruthyStr args.description then args.description else none
    start :=
      if jsTruthyStr args.start then
        some { dateTime := args.start, timeZone := tz }
      else none
    endTime :=
      if jsTruthyStr args.endTime then
        some { dateTime := args.endTime, timeZone := tz }
      else none
    attendees :=
      match args.attendees with
      | some l => some (l.map (fun email => { email := email }))
      | none => none }

/-- the argument object of the patch call made by handleUpdateEvent
(src/index.js lines 247 to 251). -/
def updatePatchParams (args : Args) (tz : String) : PatchParams :=
  { calendarId := "primary", eventId := args.eventId,
    requestBody := patchBodyOf args tz }

/-- handleUpdateEvent (src/index.js lines 222 to 272). -/
def handleUpdateEvent (args : Args) (tz : String) (cal : Calendar) : ToolResult :=
  match cal.patch (updatePatchParams args tz) with
  | .ok resp =>
      { content := [{ type := "text",
                      text := some ("Event updated successfully. Event ID: " ++ resp.id) }] }
  | .error msg =>
      { content := [{ type := "text",
                      text := some ("Error updating event: " ++ msg) }],
        isError := true }

/-- handleDeleteEvent (src/index.js lines 274 to 302): the success text
echoes the caller-supplied eventId through a template literal. -/
def handleDeleteEvent (args : Args) (cal : Calendar) : ToolResult :=
  match cal.delete { calendarId := "primary", eventId := args.eventId } with
  | .ok _ =>
      { content := [{ type := "text",
                      text := some ("Event deleted successfully. Event ID: " ++
            jsTemplate args.eventId) }] }
  | .error msg =>
      { content := [{ type := "text",
                      text := some ("Error deleting event: " ++ msg) }],
        isError := true }

/-- the argument object of the list call made by handleListEvents
(src/index.js lines 306 to 317): maxResults and timeMin default through the
JavaScript || operator, timeMax is forwarded as is. -/
def listParamsOf (args : Args) (now : String) : ListParams :=
  { calendarId := "primary"
    timeMin := jsOrStr args.timeMin now
    timeMax := args.timeMax
    maxResults := jsOrNum args.maxResults 10
    singleEvents := true
    orderBy := "startTime" }

/-- the projection applied to each returned event (src/index.js lines 319
to 325): exactly the fields id, summary, start, end, location are kept. -/
def projectEvent (e : GEvent) : ProjEvent :=
  { id := e.id, summary := e.summary, start := e.start,
    endTime := e.endTime, location := e.location }

/-- handleListEvents (src/index.js lines 304 to 346): the optional chaining
items?.map leaves events undefined when items is absent, and
JSON.stringify(undefined, null, 2) is undefined, so the text field is then
undefined. -/
def handleListEvents (args : Args) (now : String) (cal : Calendar) : ToolResult :=
  match cal.list (listParamsOf args now) with
  | .ok data =>
      { content := [{ type := "text",
                      text := (data.items.map
                        (fun items => items.map projectEvent)).map
                          stringifyProjList }] }
  | .error msg =>
      { content := [{ type := "text",
                      text := some ("Error fetching calendar events: " ++ msg) }],
        isError := true }

/-- the CallToolRequestSchema handler (src/index.js lines 157 to 173): routes
the four registered names to their handlers and throws McpError with
ErrorCode.MethodNotFound for every other name. -/
def dispatch (req : ToolCall) (tz now : String) (cal : Calendar) : DispatchOutcome :=
  match req.name with
  | "list_events" => .result (handleListEvents req.arguments now cal)
  | "create_event" => .result (handleCreateEvent req.arguments tz cal)
  | "update_event" => .result (handleUpdateEvent req.arguments tz cal)
  | "delete_event" => .result (handleDeleteEvent req.arguments cal)
  | _ => .mcpError .methodNotFound ("Unknown tool: " ++ req.name)

/-- one property of a tool input schema: field name and declared type. -/
structure PropSchema where
  name : String
  type : String
deriving DecidableEq, Repr

/-- a tool input schema: declared properties in source order and the list of
required field names (empty when the source object carries no required key). -/
structure InputSchema where
  type : String
  properties : List PropSchema
  required : List String
deriving DecidableEq, Repr

/-- a tool definition of the registry. -/
structure ToolDefinition where
  name : String
  description : String
  inputSchema : InputSchema
deriving DecidableEq, Repr

/-- the ListToolsRequestSchema handler (src/index.js lines 44 to 156): the
static catalog of the four tools, descriptions elided to the schema shape. -/
def listTools : List ToolDefinition :=
  [ { name := "list_events",
      description := "List upcoming calendar events",
      inputSchema :=
        { type := "object",
          properties :=
            [ { name := "maxResults", type := "number" },
              { name := "timeMin", type := "string" },
              { name := "timeMax", type := "string" } ],
          required := [] } },
    { name := "create_event",
      description := "Create a new calendar event",
      inputSchema :=
        { type := "object",
          properties :=
            [ { name := "summary", type := "string" },
              { name := "location", type := "string" },
              { name := "description", type := "string" },
              { name := "start", type := "string" },
              { name := "end", type := "string" },
              { name := "attendees", type := "array" } ],
          required := ["summary", "start", "end"] } },
    { name := "update_event",
      description := "Update an existing calendar event",
      inputSchema :=
        { type := "object",
          properties :=
            [ { name := "eventId", type := "string" },
              { name := "summary", type := "string" },
              { name := "location", type := "string" },
              { name := "description", type := "string" },
              { name := "start", type := "string" },
              { name := "end", type := "string" },
              { name := "attendees", type := "array" } ],
          required := ["eventId"] } },
    { name := "delete_event",
      description := "Delete a calendar event",
      inputSchema :=
        { type := "object",
          properties := [ { name := "eventId", type := "string" } ],
          required := ["eventId"] } } ]

/-- the list of patch keys present in a patch body, in source order; the
source key end appears as the string "end". -/
def patchKeys (p : PatchBody) : List String :=
  (if p.summary.isSome then ["summary"] else []) ++
  (if p.location.isSome then ["location"] else []) ++
  (if p.description.isSome then ["description"] else []) ++
  (if p.start.isSome then ["start"] else []) ++
  (if p.endTime.isSome then ["end"] else []) ++
  (if p.attendees.isSome then ["attendees"] else [])

/-- the update argument fields whose values are truthy under JavaScript
truthiness (strings: nonempty; attendees: any present array). -/
def truthyArgKeys (args : Args) : List String :=
  (if jsTruthyStr args.summary then ["summary"] else []) ++
  (if jsTruthyStr args.location then ["location"] else []) ++
  (if jsTruthyStr args.description then ["description"] else []) ++
  (if jsTruthyStr args.start then ["start"] else []) ++
  (if jsTruthyStr args.endTime then ["end"] else []) ++
  (if args.attendees.isSome then ["attendees"] else [])

/-- an argument bag with every field undefined. -/
def argsEmpty : Args := {}

/-- a Calendar client stub whose calls all succeed. -/
def calOk : Calendar :=
  { insert := fun _ => .ok { id := "evt_1" }
    patch := fun _ => .ok { id := "evt_1" }
    delete := fun _ => .ok ()
    list := fun _ => .ok { items := some [] } }

/-- a Calendar client stub whose calls all throw with message "not found". -/
def calErr : Calendar :=
  { insert := fun _ => .error "not found"
    patch := fun _ => .error "not found"
    delete := fun _ => .error "not found"
    list := fun _ => .error "not found" }

/-- a Calendar client stub whose list call succeeds with no items array. -/
def calNoItems : Calendar :=
  { calOk with list := fun _ => .ok { items := none } }

/-- C1: dispatch of a ToolCall whose name is none of list_events,
create_event, update_event, delete_event yields the protocol-level
MethodNotFound error with message "Unknown tool: <name>"; no handler runs
and no ToolResult is returned. -/
theorem C1_unknown_tool_protocol_error (req : ToolCall) (tz now : String)
    (cal : Calendar)
    (h : req.name ∉ ["list_events", "create_event", "update_event", "delete_event"]) :
    dispatch req tz now cal =
      .mcpError .methodNotFound ("Unknown tool: " ++ req.name) := by
  simp only [List.mem_cons, List.not_mem_nil, or_false] at h
  push_neg at h
  unfold dispatch
  split <;> simp_all

/-- C1 witness: a concrete unregistered tool name. -/
theorem C1_witness :
    dispatch { name := "gmail_send", arguments := argsEmpty } "UTC"
        "2024-01-01T00:00:00Z" calOk =
      .mcpError .methodNotFound ("Unknown tool: " ++ "gmail_send") :=
  C1_unknown_tool_protocol_error _ _ _ _ (by decide)

/-- C7: listTools is a fixed sequence (total function, no side effects)
holding exactly one ToolDefinition per tool name, with the required and
optional field constraints of the spec table: create_event requires
summary, start, end; update_event and delete_event require eventId;
list_events requires nothing and offers maxResults, timeMin, timeMax. -/
theorem C7_registry_definitions :
    listTools.map ToolDefinition.name =
      ["list_events", "create_event", "update_event", "delete_event"] ∧
    (∀ n ∈ ["list_events", "create_event", "update_event", "delete_event"],
      (listTools.filter (fun t => t.name = n)).length = 1) ∧
    (∀ t ∈ listTools, t.name = "create_event" →
      t.inputSchema.required = ["summary", "start", "end"]) ∧
    (∀ t ∈ listTools, t.name = "update_event" →
      t.inputSchema.required = ["eventId"]) ∧
    (∀ t ∈ listTools, t.name = "delete_event" →
      t.inputSchema.required = ["eventId"]) ∧
    (∀ t ∈ listTools, t.name = "list_events" →
      t.inputSchema.required = [] ∧
      t.inputSchema.properties.map PropSchema.name =
        ["maxResults", "timeMin", "timeMax"]) := by
  decide

/-- C2: for every registered tool and every argument bag, a failing Calendar
client call makes the handler return, through the dispatcher, exactly one
ToolResult with isError true whose single text item carries a message
derived from the failure message; handlers are total, so no exception ever
crosses the dispatch boundary and each call yields exactly one result. -/
theorem C2_handler_error_envelope (args : Args) (tz now msg : String)
    (cal : Calendar) :
    (cal.list (listParamsOf args now) = .error msg →
      dispatch { name := "list_events", arguments := args } tz now cal =
        .result { content := [{ type := "text", text := some ("Error fetching calendar events: " ++ msg) }], isError := true }) ∧
    (cal.insert (createInsertParams args tz) = .error msg →
      dispatch { name := "create_event", arguments := args } tz now cal =
        .result { content := [{ type := "text", text := some ("Error creating event: " ++ msg) }], isError := true }) ∧
    (cal.patch (updatePatchParams args tz) = .error msg →
      dispatch { name := "update_event", arguments := args } tz now cal =
        .result { content := [{ type := "text", text := some ("Error updating event: " ++ msg) }], isError := true }) ∧
    (cal.delete { calendarId := "primary", eventId := args.eventId } = .error msg →
      dispatch { name := "delete_event", arguments := args } tz now cal =
        .result { content := [{ type := "text", text := some ("Error deleting event: " ++ msg) }], isError := true }) := by
  refine ⟨fun h => ?_, fun h => ?_, fun h => ?_, fun h => ?_⟩ <;>
    simp [dispatch, handleListEvents, handleCreateEvent, handleUpdateEvent,
      handleDeleteEvent, h]

/-- C2 witness: the four failing calls at a concrete argument bag against
the throwing client stub. -/
theorem C2_witness :
    dispatch { name := "list_events", arguments := argsEmpty } "UTC"
        "2024-01-01T00:00:00Z" calErr =
      .result { content := [{ type := "text", text := some ("Error fetching calendar events: " ++ "not found") }], isError := true } ∧
    dispatch { name := "create_event", arguments := argsEmpty } "UTC"
        "2024-01-01T00:00:00Z" calErr =
      .result { content := [{ type := "text", text := some ("Error creating event: " ++ "not found") }], isError := true } ∧
    dispatch { name := "update_event", arguments := argsEmpty } "UTC"
        "2024-01-01T00:00:00Z" calErr =
      .result { content := [{ type := "text", text := some ("Error updating event: " ++ "not found") }], isError := true } ∧
    dispatch { name := "delete_event", arguments := argsEmpty } "UTC"
        "2024-01-01T00:00:00Z" calErr =
      .result { content := [{ type := "text", text := some ("Error deleting event: " ++ "not found") }], isError := true } := by
  have h := C2_handler_error_envelope argsEmpty "UTC" "2024-01-01T00:00:00Z"
    "not found" calErr
  exact ⟨h.1 rfl, h.2.1 rfl, h.2.2.1 rfl, h.2.2.2 rfl⟩

/-- presence of a string-valued patch field equals the truthiness of the
argument it is built from. -/
theorem isSome_ite_truthy (v : Option String) :
    (if jsTruthyStr v then v else none).isSome = jsTruthyStr v := by
  cases v with
  | none => simp [jsTruthyStr]
  | some s => by_cases h : s = "" <;> simp [jsTruthyStr, h]

/-- presence of an endpoint-valued patch field equals its guard. -/
theorem isSome_ite_time (c : Bool) (t : EventTime) :
    (if c then some t else none).isSome = c := by
  cases c <;> simp

/-- C3: the patch built by handleUpdateEvent holds exactly the fields whose
argument values are truthy; with eventId abc123 and only summary provided
the patch is exactly the one-field summary object; an empty-string field is
excluded, so no field can be cleared to empty through this interface. -/
theorem C3_update_patch_truthy_fields (args : Args) (tz : String) :
    patchKeys (patchBodyOf args tz) = truthyArgKeys args ∧
    (jsTruthyStr args.summary = true →
      (patchBodyOf args tz).summary = args.summary) ∧
    patchBodyOf { eventId := some "abc123", summary := some "New Title" } tz =
      { summary := some "New Title" } ∧
    (args.description = some "" → (patchBodyOf args tz).description = none) := by
  refine ⟨?_, ?_, ?_, ?_⟩
  · have h1 := isSome_ite_truthy args.summary
    have h2 := isSome_ite_truthy args.location
    have h3 := isSome_ite_truthy args.description
    have h4 := isSome_ite_time (jsTruthyStr args.start)
      { dateTime := args.start, timeZone := tz }
    have h5 := isSome_ite_time (jsTruthyStr args.endTime)
      { dateTime := args.endTime, timeZone := tz }
    have h6 : (patchBodyOf args tz).attendees.isSome = args.attendees.isSome := by
      cases h : args.attendees <;> simp [patchBodyOf, h]
    simp only [patchKeys, truthyArgKeys, patchBodyOf] at h6 ⊢
    simp only [h1, h2, h3, h4, h5, h6]
  · intro h; simp [patchBodyOf, h]
  · simp [patchBodyOf, jsTruthyStr]
  · intro h; simp [patchBodyOf, h, jsTruthyStr]

/-- an argument bag carrying eventId, summary and an explicit empty-string
description. -/
def argsC3 : Args :=
  { eventId := some "abc123", summary := some "New Title",
    description := some "" }

/-- C3 witness: the concrete bag argsC3. -/
theorem C3_witness :
    patchKeys (patchBodyOf argsC3 "UTC") = truthyArgKeys argsC3 ∧
    (patchBodyOf argsC3 "UTC").description = none := by
  have h := C3_update_patch_truthy_fields argsC3 "UTC"
  exact ⟨h.1, h.2.2.2 rfl⟩

/-- C4: the event object inserted by handleCreateEvent targets calendar
primary and carries the given ISO timestamps with the process local
timezone on both endpoints (one and the same zone), attendees mapped
element-wise to one-field email objects (the empty sequence when the
argument is omitted); on success the result text confirms creation and
embeds the identifier the provider returned. -/
theorem C4_create_event_shape (args : Args) (tz s e : String) (cal : Calendar)
    (d : EventData)
    (hs : args.start = some s) (he : args.endTime = some e)
    (hok : cal.insert (createInsertParams args tz) = .ok d) :
    (createInsertParams args tz).calendarId = "primary" ∧
    (createBodyOf args tz).start = { dateTime := some s, timeZone := tz } ∧
    (createBodyOf args tz).endTime = { dateTime := some e, timeZone := tz } ∧
    (createBodyOf args tz).start.timeZone = (createBodyOf args tz).endTime.timeZone ∧
    (createBodyOf args tz).attendees =
      (args.attendees.getD []).map (fun em => { email := em }) ∧
    (args.attendees = none → (createBodyOf args tz).attendees = []) ∧
    handleCreateEvent args tz cal =
      { content := [{ type := "text", text := some ("Event created successfully. Event ID: " ++ d.id) }], isError := false } ∧
    (∃ pre post, ("Event created successfully. Event ID: " ++ d.id) =
      pre ++ d.id ++ post) := by
  refine ⟨rfl, ?_, ?_, rfl, rfl, ?_, ?_, ?_⟩
  · simp [createBodyOf, hs]
  · simp [createBodyOf, he]
  · intro h; simp [createBodyOf, h]
  · simp [handleCreateEvent, hok]
  · exact ⟨"Event created successfully. Event ID: ", "", by simp⟩

/-- an argument bag for the create example of the spec: summary Test and
the two timestamps, no attendees. -/
def argsC4 : Args :=
  { summary := some "Test", start := some "2024-01-01T10:00:00Z",
    endTime := some "2024-01-01T11:00:00Z" }

/-- C4 witness: the concrete create example against the succeeding stub. -/
theorem C4_witness :
    (createBodyOf argsC4 "UTC").attendees = [] ∧
    handleCreateEvent argsC4 "UTC" calOk =
      { content := [{ type := "text", text := some ("Event created successfully. Event ID: " ++ "evt_1") }], isError := false } := by
  have h := C4_create_event_shape argsC4 "UTC" "2024-01-01T10:00:00Z"
    "2024-01-01T11:00:00Z" calOk { id := "evt_1" } rfl rfl rfl
  exact ⟨h.2.2.2.2.2.1 rfl, h.2.2.2.2.2.2.1⟩

/-- C5: the list request targets calendar primary with singleEvents true and
orderBy startTime and forwards a truthy maxResults unchanged; the projection
keeps exactly the fields id, summary, start, end, location (it is determined
by them alone), is applied element-wise, and when the provider honours the
requested cap the projected list holds at most maxResults items. -/
theorem C5_list_request_and_projection (args : Args) (now : String) (m : Int)
    (items : List GEvent) (cal : Calendar)
    (hm : args.maxResults = some m) (hm0 : m ≠ 0) :
    (listParamsOf args now).calendarId = "primary" ∧
    (listParamsOf args now).singleEvents = true ∧
    (listParamsOf args now).orderBy = "startTime" ∧
    (listParamsOf args now).maxResults = m ∧
    (∀ ev : GEvent, projectEvent ev =
      { id := ev.id, summary := ev.summary, start := ev.start,
        endTime := ev.endTime, location := ev.location }) ∧
    (∀ e1 e2 : GEvent, e1.id = e2.id → e1.summary = e2.summary →
      e1.start = e2.start → e1.endTime = e2.endTime →
      e1.location = e2.location → projectEvent e1 = projectEvent e2) ∧
    (cal.list (listParamsOf args now) = .ok { items := some items } →
      handleListEvents args now cal =
        { content := [{ type := "text", text := some (stringifyProjList (items.map projectEvent)) }], isError := false }) ∧
    (Int.ofNat items.length ≤ m →
      Int.ofNat (items.map projectEvent).length ≤ m) := by
  refine ⟨rfl, rfl, rfl, ?_, fun ev => rfl, ?_, ?_, ?_⟩
  · simp [listParamsOf, jsOrNum, hm, hm0]
  · intro e1 e2 h1 h2 h3 h4 h5
    simp [projectEvent, h1, h2, h3, h4, h5]
  · intro h; simp [handleListEvents, h]
  · intro h; simpa using h

/-- an argument bag requesting at most five events. -/
def argsC5 : Args := { maxResults := some 5 }

/-- a provider event whose dropped fields are populated. -/
def gEventSample : GEvent :=
  { id := some "e1", summary := some "standup",
    description := some "daily sync", location := some "room 1",
    start := some { dateTime := some "2024-01-01T10:00:00Z", timeZone := "UTC" },
    endTime := some { dateTime := some "2024-01-01T10:15:00Z", timeZone := "UTC" },
    status := some "confirmed", htmlLink := some "https://cal/e1" }

/-- C5 witness: maxResults five forwarded, projection applied to a
two-element response, cap respected. -/
theorem C5_witness :
    (listParamsOf argsC5 "2024-01-01T00:00:00Z").maxResults = 5 ∧
    Int.ofNat ([gEventSample, gEventSample].map projectEvent).length ≤ 5 := by
  have h := C5_list_request_and_projection argsC5 "2024-01-01T00:00:00Z" 5
    [gEventSample, gEventSample] calOk rfl (by decide)
  exact ⟨h.2.2.2.1, h.2.2.2.2.2.2.2 (by decide)⟩

/-- C6: list_events defaulting: an absent maxResults becomes 10, an absent
timeMin becomes the current instant now, and an absent timeMax stays unset
in the provider request. -/
theorem C6_list_defaults (args : Args) (now : String) :
    (args.maxResults = none → (listParamsOf args now).maxResults = 10) ∧
    (args.timeMin = none → (listParamsOf args now).timeMin = now) ∧
    (args.timeMax = none → (listParamsOf args now).timeMax = none) := by
  refine ⟨fun h => ?_, fun h => ?_, fun h => ?_⟩ <;>
    simp [listParamsOf, jsOrNum, jsOrStr, h]

/-- C6 witness: the all-absent argument bag. -/
theorem C6_witness :
    (listParamsOf argsEmpty "2024-01-01T00:00:00Z").maxResults = 10 ∧
    (listParamsOf argsEmpty "2024-01-01T00:00:00Z").timeMin =
      "2024-01-01T00:00:00Z" ∧
    (listParamsOf argsEmpty "2024-01-01T00:00:00Z").timeMax = none := by
  have h := C6_list_defaults argsEmpty "2024-01-01T00:00:00Z"
  exact ⟨h.1 rfl, h.2.1 rfl, h.2.2 rfl⟩

/-- C8: handleDeleteEvent echoes the caller-supplied eventId in the success
text (never a substituted identifier), and on a provider failure returns
isError true with a text holding "Error deleting event" followed by the
provider message. -/
theorem C8_delete_echo_and_error (args : Args) (id msg : String)
    (cal : Calendar) (hid : args.eventId = some id) :
    (cal.delete { calendarId := "primary", eventId := args.eventId } = .ok () →
      handleDeleteEvent args cal =
        { content := [{ type := "text", text := some ("Event deleted successfully. Event ID: " ++ id) }], isError := false }) ∧
    (cal.delete { calendarId := "primary", eventId := args.eventId } = .error msg →
      handleDeleteEvent args cal =
        { content := [{ type := "text", text := some ("Error deleting event: " ++ msg) }], isError := true }) := by
  constructor
  · intro h; rw [hid] at h; simp [handleDeleteEvent, h, jsTemplate, hid]
  · intro h; simp [handleDeleteEvent, h]

/-- an argument bag carrying only eventId abc123. -/
def argsC8 : Args := { eventId := some "abc123" }

/-- C8 witness: deletion of abc123 against the succeeding stub and against
the stub that throws "not found". -/
theorem C8_witness :
    handleDeleteEvent argsC8 calOk =
      { content := [{ type := "text", text := some ("Event deleted successfully. Event ID: " ++ "abc123") }], isError := false } ∧
    handleDeleteEvent argsC8 calErr =
      { content := [{ type := "text", text := some ("Error deleting event: " ++ "not found") }], isError := true } :=
  ⟨(C8_delete_echo_and_error argsC8 "abc123" "not found" calOk rfl).1 rfl,
   (C8_delete_echo_and_error argsC8 "abc123" "not found" calErr rfl).2 rfl⟩

/-- C9: list_events defaulting is truthiness-based, not presence-based: a
maxResults of 0 still yields 10 in the provider request, and an
empty-string timeMin still yields the current instant; a falsy value never
reaches the provider. -/
theorem C9_falsy_defaults (args : Args) (now : String) :
    (args.maxResults = some 0 → (listParamsOf args now).maxResults = 10) ∧
    (args.timeMin = some "" → (listParamsOf args now).timeMin = now) := by
  constructor
  · intro h; simp [listParamsOf, jsOrNum, h]
  · intro h; simp [listParamsOf, jsOrStr, h]

/-- an argument bag carrying the falsy values 0 and the empty string. -/
def argsC9 : Args := { maxResults := some 0, timeMin := some "" }

/-- C9 witness: the concrete falsy bag. -/
theorem C9_witness :
    (listParamsOf argsC9 "2024-01-01T00:00:00Z").maxResults = 10 ∧
    (listParamsOf argsC9 "2024-01-01T00:00:00Z").timeMin =
      "2024-01-01T00:00:00Z" := by
  have h := C9_falsy_defaults argsC9 "2024-01-01T00:00:00Z"
  exact ⟨h.1 rfl, h.2 rfl⟩

/-- C10: when the provider list call succeeds without an items array, the
handler still returns a non-error ToolResult, but the single content item
carries an undefined text instead of a serialized list. -/
theorem C10_missing_items_text_undefined (args : Args) (now : String)
    (cal : Calendar)
    (h : cal.list (listParamsOf args now) = .ok { items := none }) :
    handleListEvents args now cal =
      { content := [{ type := "text", text := none }], isError := false } := by
  simp [handleListEvents, h]

/-- C10 witness: the stub whose list response has no items array. -/
theorem C10_witness :
    handleListEvents argsEmpty "2024-01-01T00:00:00Z" calNoItems =
      { content := [{ type := "text", text := none }], isError := false } :=
  C10_missing_items_text_undefined argsEmpty "2024-01-01T00:00:00Z"
    calNoItems rfl

end GCalMcp
